import Mathlib

/-
Shallow embedding of lms/djangoapps/commerce/signals.py.

External collaborators (request-user lookup, CommerceConfiguration, the
e-commerce REST client, theming detection, Zendesk settings and transport)
are modelled as an environment of oracles; every fallible remote call
returns `Except Exc _`.  The observable behaviour of each function is an
explicit trace of events: one event per log statement and per outbound or
internal call, in source order.
-/

namespace CommerceSignals

/-- A Python exception value, identified by its class name.  The handlers in
the source catch `Exception` and the helpers use bare `except:`; the claims
never distinguish non-`Exception` `BaseException`s, so one exception type
covers every raise that matters here. -/
structure Exc where
  name : String
deriving DecidableEq, Repr

/-- A Django user as signals.py sees one: `id`, `username`, `email`,
`profile.name` (empty string models a falsy name), and whether the object is
an `AnonymousUser` instance. -/
structure PyUser where
  id : Nat
  username : String
  email : String
  profileName : String
  isAnonymous : Bool
deriving DecidableEq, Repr

/-- The enrollment passed with the REFUND_ORDER signal, restricted to the
attributes signals.py reads. -/
structure CourseEnrollment where
  user : PyUser
  course_id : String
  mode : String
deriving DecidableEq, Repr

/-- The entitlement passed with the REFUND_ENTITLEMENT signal, restricted to
the attributes signals.py reads. -/
structure CourseEntitlement where
  user : PyUser
  uuid : String
  order_number : String
  mode : String
deriving DecidableEq, Repr

/-- The duck-typed `course_product` argument of `_process_refund` and
`send_refund_notification`: both variants expose `user` and `mode`, an
enrollment exposes `course_id`, an entitlement exposes `uuid`. -/
structure CourseProduct where
  user : PyUser
  mode : String
  course_id : String
  uuid : String
deriving DecidableEq, Repr

def CourseEnrollment.toProduct (e : CourseEnrollment) : CourseProduct :=
  { user := e.user, mode := e.mode, course_id := e.course_id, uuid := "" }

def CourseEntitlement.toProduct (e : CourseEntitlement) : CourseProduct :=
  { user := e.user, mode := e.mode, course_id := "", uuid := e.uuid }

/-- Body of the POST to `api_client.refunds` (line `api_client.refunds.post(...)`):
`{course_id, username}` for seats, `{order_number, username, entitlement_uuid}`
for entitlements. -/
inductive RefundPayload
  | seat (course_id : String) (username : String)
  | entitlement (order_number : String) (username : String) (entitlement_uuid : String)
deriving DecidableEq, Repr

/-- The `data['ticket']` dictionary built by `create_zendesk_ticket`
(`json.dumps` is external serialisation and is abstracted away: the payload
is carried structurally). -/
structure ZendeskTicket where
  requesterName : String
  requesterEmail : String
  subject : String
  body : String
  tags : List String
deriving DecidableEq, Repr

/-- One observable step: a log statement (constructor name records the level
and the call site) or a call (outbound HTTP call, or entry into one of the
module's own functions). -/
inductive Event
  | callOpenRefund (payload : RefundPayload)
  | callApprove (refundId : Int)
  | callZendeskPost (url : String) (user : String) (pwd : String) (ticket : ZendeskTicket)
  | callProcessRefund (refundIds : List Int)
  | callSendRefundNotification (refundIds : List Int)
  | callRefundSeat (userId : Nat) (courseId : String)
  | callRefundEntitlement (userId : Nat) (uuid : String)
  | logInfoRefundApproved (refundId : Int)
  | logExcApproveFailed (refundId : Int)
  | logInfoSkipNotification (userId : Nat) (courseIdentifier : String) (mode : String)
  | logWarningNotificationFailed
  | logInfoAttemptingRefund (userId : Nat) (courseKey : String)
  | logInfoRefundOpened (userId : Nat) (courseKey : String) (refundIds : List Int)
  | logInfoNoRefundOpened (userId : Nat) (courseKey : String)
  | logInfoAttemptingRefundEnt (username : String) (uuid : String)
  | logInfoRefundOpenedEnt (username : String) (uuid : String) (refundIds : List Int)
  | logInfoNoRefundOpenedEnt (userId : Nat) (uuid : String)
  | logExcHandlerOrder (userId : Nat) (courseId : String)
  | logExcHandlerEntitlement (userId : Nat) (uuid : String) (excMsg : String)
  | logDebugZendeskNotConfigured
  | logErrorZendeskStatus (status : Nat) (content : String)
  | logDebugZendeskCreated
  | logExcZendeskFailed
deriving DecidableEq, Repr

/-- The environment of external collaborators, one oracle per external call
site.  `Option` on a setting models an unset/falsy value; `Except Exc` on a
call models that the call may raise. -/
structure Env where
  commerceConfigured : Bool
  requestUser : Option PyUser
  refundable : Except Exc Bool
  entitlementRefundable : Except Exc Bool
  ecommerceServiceWorkerUsername : String
  userGet : String → Except Exc PyUser
  configCurrent : Except Exc Bool
  refundsPost : RefundPayload → Except Exc (List Int)
  approvePut : Int → Except Exc Unit
  themedSite : Bool
  ecommercePublicUrlRoot : String
  zendeskUrl : Option String
  zendeskUser : Option String
  zendeskApiKey : Option String
  requestsPost : String → String → String → ZendeskTicket → Except Exc (Nat × String)

/-- Discriminator for `Except` results, used in statements and filters. -/
def isOkE {α : Type} : Except Exc α → Bool
  | .ok _ => true
  | .error _ => false

/-- Abstraction of the stdlib `urlparse.urljoin`; the claims never inspect the
text of a URL, only which calls happen, so plain concatenation stands in for
the RFC resolution rules. -/
def urljoin (base : String) (path : String) : String :=
  base ++ path

/-- Embedding of `create_zendesk_ticket(requester_name, requester_email,
subject, body, tags)`.  Returns the event trace and the Python-level result;
the source catches every transport exception, so the result is always `ok`. -/
def create_zendesk_ticket (env : Env) (requester_name : String)
    (requester_email : String) (subject : String) (body : String)
    (tags : Option (List String)) : List Event × Except Exc Unit :=
  match env.zendeskUrl, env.zendeskUser, env.zendeskApiKey with
  | some zurl, some zuser, some zkey =>
    -- tags = list(tags or []); tags.append('LMS'); tags = list(set(tags)).
    -- Python's set iteration order is unspecified; `dedup` fixes one order,
    -- which no claim depends on.
    let tags1 : List String := (tags.getD []) ++ ["LMS"]
    let tags2 : List String := tags1.dedup
    let ticket : ZendeskTicket :=
      { requesterName := requester_name, requesterEmail := requester_email,
        subject := subject, body := body, tags := tags2 }
    let url := urljoin zurl "/api/v2/tickets.json"
    let user := zuser ++ "/token"
    match env.requestsPost url user zkey ticket with
    | .error _ =>
      ([Event.callZendeskPost url user zkey ticket, Event.logExcZendeskFailed], .ok ())
    | .ok (status, content) =>
      if status ≠ 201 then
        ([Event.callZendeskPost url user zkey ticket,
          Event.logErrorZendeskStatus status content], .ok ())
      else
        ([Event.callZendeskPost url user zkey ticket,
          Event.logDebugZendeskCreated], .ok ())
  | _, _, _ => ([Event.logDebugZendeskNotConfigured], .ok ())

/-- Embedding of `generate_refund_notification_body(student, refund_ids)`. -/
def generate_refund_notification_body (env : Env) (student : PyUser)
    (refund_ids : List Int) : String :=
  let msg := "A refund request has been initiated for " ++ student.username ++
    " (" ++ student.email ++
    "). To process this request, please visit the link(s) below."
  let refund_urls := refund_ids.map
    (fun refund_id => urljoin env.ecommercePublicUrlRoot
      ("/dashboard/refunds/" ++ toString refund_id ++ "/"))
  msg ++ "\n\n" ++ String.intercalate "\n" refund_urls

/-- Embedding of `send_refund_notification(course_product, refund_ids)`:
raises `NotImplementedError` when the request is on a themed site, otherwise
builds the ticket fields and calls `create_zendesk_ticket`. -/
def send_refund_notification (env : Env) (course_product : CourseProduct)
    (refund_ids : List Int) : List Event × Except Exc Unit :=
  let tags := ["auto_refund"]
  if env.themedSite then
    ([], .error ⟨"NotImplementedError"⟩)
  else
    let student := course_product.user
    let subject := "[Refund] User-Requested Refund"
    let body := generate_refund_notification_body env student refund_ids
    let requester_name :=
      if student.profileName = "" then student.username else student.profileName
    create_zendesk_ticket env requester_name student.email subject body (some tags)

/-- The per-ID approval loop of `_process_refund` (auto-approval branch):
for each `refund_id` try `api_client.refunds(refund_id).process.put({'action':
'approve_payment_only'})`; on success log an info line, on any exception log
and append the ID to `refunds_requiring_approval`.  Returns the trace and the
`refunds_requiring_approval` list. -/
def approveLoop (env : Env) (refund_ids : List Int) : List Event × List Int :=
  match refund_ids with
  | [] => ([], [])
  | refund_id :: rest =>
    let headEvs : List Event :=
      Event.callApprove refund_id ::
        (match env.approvePut refund_id with
         | .ok _ => [Event.logInfoRefundApproved refund_id]
         | .error _ => [Event.logExcApproveFailed refund_id])
    let headPending : List Int :=
      match env.approvePut refund_id with
      | .ok _ => []
      | .error _ => [refund_id]
    let tail := approveLoop env rest
    (headEvs ++ tail.1, headPending ++ tail.2)

/-- The `refunds_requiring_approval` computation of `_process_refund`: the
approval loop when auto-approval is enabled, the whole input batch when it is
disabled. -/
def refundsRequiringApproval (env : Env) (auto : Bool)
    (refund_ids : List Int) : List Event × List Int :=
  if auto then approveLoop env refund_ids else ([], refund_ids)

/-- The tail of `_process_refund` (`if refunds_requiring_approval:` onward):
suppress the notification with an info log for non-'verified' modes, otherwise
try `send_refund_notification` and downgrade any exception to a warning. -/
def notifyBranch (env : Env) (refunds_requiring_approval : List Int)
    (course_product : CourseProduct) (is_entitlement : Bool) :
    List Event × Except Exc Unit :=
  if refunds_requiring_approval.isEmpty then ([], .ok ())
  else if course_product.mode ≠ "verified" then
    -- the source computes course_identifier = course_product.course_id and
    -- overwrites it with str(course_product.uuid) when is_entitlement
    let course_identifier :=
      if is_entitlement then course_product.uuid else course_product.course_id
    ([Event.logInfoSkipNotification course_product.user.id course_identifier
        course_product.mode], .ok ())
  else
    let sent := send_refund_notification env course_product refunds_requiring_approval
    match sent.2 with
    | .ok _ =>
      (Event.callSendRefundNotification refunds_requiring_approval :: sent.1, .ok ())
    | .error _ =>
      (Event.callSendRefundNotification refunds_requiring_approval :: sent.1 ++
        [Event.logWarningNotificationFailed], .ok ())

/-- Embedding of `_process_refund(refund_ids, api_client, course_product,
is_entitlement)`.  `CommerceConfiguration.current()` is the only statement
that can raise out of it. -/
def _process_refund (env : Env) (refund_ids : List Int)
    (course_product : CourseProduct) (is_entitlement : Bool) :
    List Event × Except Exc Unit :=
  match env.configCurrent with
  | .error e => ([], .error e)
  | .ok auto =>
    let pendingStep := refundsRequiringApproval env auto refund_ids
    let branch := notifyBranch env pendingStep.2 course_product is_entitlement
    (pendingStep.1 ++ branch.1, branch.2)

/-- Embedding of `refund_seat(course_enrollment)`: look up the service worker
user, log, POST the refund request, then either run `_process_refund` on the
opened IDs or log that none was opened; always return the posted ID list.
Exceptions from the user lookup, the POST or `_process_refund` propagate. -/
def refund_seat (env : Env) (course_enrollment : CourseEnrollment) :
    List Event × Except Exc (List Int) :=
  let course_key_str := course_enrollment.course_id
  let enrollee := course_enrollment.user
  match env.userGet env.ecommerceServiceWorkerUsername with
  | .error e => ([], .error e)
  | .ok _service_user =>
    let payload := RefundPayload.seat course_key_str enrollee.username
    let evs0 : List Event :=
      [Event.logInfoAttemptingRefund enrollee.id course_key_str,
       Event.callOpenRefund payload]
    match env.refundsPost payload with
    | .error e => (evs0, .error e)
    | .ok refund_ids =>
      if refund_ids.isEmpty then
        (evs0 ++ [Event.logInfoNoRefundOpened enrollee.id course_key_str],
         .ok refund_ids)
      else
        let processed :=
          _process_refund env refund_ids course_enrollment.toProduct false
        let evs1 := evs0 ++
          [Event.logInfoRefundOpened enrollee.id course_key_str refund_ids,
           Event.callProcessRefund refund_ids] ++ processed.1
        match processed.2 with
        | .error e => (evs1, .error e)
        | .ok _ => (evs1, .ok refund_ids)

/-- Embedding of `refund_entitlement(course_entitlement)`: same shape as
`refund_seat` with the entitlement payload, entitlement-flavoured log lines
and `is_entitlement=True`. -/
def refund_entitlement (env : Env) (course_entitlement : CourseEntitlement) :
    List Event × Except Exc (List Int) :=
  let enrollee := course_entitlement.user
  let entitlement_uuid := course_entitlement.uuid
  match env.userGet env.ecommerceServiceWorkerUsername with
  | .error e => ([], .error e)
  | .ok _service_user =>
    let payload := RefundPayload.entitlement course_entitlement.order_number
      enrollee.username entitlement_uuid
    let evs0 : List Event :=
      [Event.logInfoAttemptingRefundEnt enrollee.username entitlement_uuid,
       Event.callOpenRefund payload]
    match env.refundsPost payload with
    | .error e => (evs0, .error e)
    | .ok refund_ids =>
      if refund_ids.isEmpty then
        (evs0 ++ [Event.logInfoNoRefundOpenedEnt enrollee.id entitlement_uuid],
         .ok refund_ids)
      else
        let processed :=
          _process_refund env refund_ids course_entitlement.toProduct true
        let evs1 := evs0 ++
          [Event.logInfoRefundOpenedEnt enrollee.username entitlement_uuid refund_ids,
           Event.callProcessRefund refund_ids] ++ processed.1
        match processed.2 with
        | .error e => (evs1, .error e)
        | .ok _ => (evs1, .ok refund_ids)

/-- Embedding of `get_request_user()`: `getattr` with a default never raises,
so this is just the environment's resolved request user. -/
def get_request_user (env : Env) : Option PyUser :=
  env.requestUser

/-- The acting user of the order handler: the first line of its try block,
`request_user = get_request_user() or course_enrollment.user`. -/
def actingUserForOrder (env : Env) (course_enrollment : CourseEnrollment) : PyUser :=
  match get_request_user env with
  | some u => u
  | none => course_enrollment.user

/-- Embedding of the REFUND_ORDER receiver `handle_refund_order(sender,
course_enrollment)`.  The commerce-configured gate and the
`course_enrollment.refundable()` eligibility check sit OUTSIDE the
try/except; only user resolution, the anonymity check and `refund_seat` are
inside it. -/
def handle_refund_order (env : Env)
    (course_enrollment : Option CourseEnrollment) : List Event × Except Exc Unit :=
  if ¬ env.commerceConfigured then ([], .ok ())
  else
    match course_enrollment with
    | none => ([], .ok ())
    | some ce =>
      match env.refundable with
      | .error e => ([], .error e)
      | .ok false => ([], .ok ())
      | .ok true =>
        -- try block
        let request_user := actingUserForOrder env ce
        if request_user.isAnonymous then ([], .ok ())
        else
          let refunded := refund_seat env ce
          match refunded.2 with
          | .ok _ =>
            (Event.callRefundSeat ce.user.id ce.course_id :: refunded.1, .ok ())
          | .error _ =>
            (Event.callRefundSeat ce.user.id ce.course_id :: refunded.1 ++
              [Event.logExcHandlerOrder ce.user.id ce.course_id], .ok ())

/-- Embedding of the REFUND_ENTITLEMENT receiver
`handle_refund_entitlement(sender, course_entitlement)`.  Same gate layout as
the order handler; the orchestration runs only when a request user resolved
and equals the entitlement's user. -/
def handle_refund_entitlement (env : Env)
    (course_entitlement : Option CourseEntitlement) : List Event × Except Exc Unit :=
  if ¬ env.commerceConfigured then ([], .ok ())
  else
    match course_entitlement with
    | none => ([], .ok ())
    | some ent =>
      match env.entitlementRefundable with
      | .error e => ([], .error e)
      | .ok false => ([], .ok ())
      | .ok true =>
        -- try block
        match get_request_user env with
        | none => ([], .ok ())
        | some request_user =>
          if ent.user = request_user then
            let refunded := refund_entitlement env ent
            match refunded.2 with
            | .ok _ =>
              (Event.callRefundEntitlement ent.user.id ent.uuid :: refunded.1, .ok ())
            | .error e =>
              (Event.callRefundEntitlement ent.user.id ent.uuid :: refunded.1 ++
                [Event.logExcHandlerEntitlement ent.user.id ent.uuid e.name], .ok ())
          else ([], .ok ())

/-! Python list objects are mutable and aliased; to state the frame property
of the tag handling in `create_zendesk_ticket` we give those six lines a
second, heap-explicit rendering: a heap of list objects addressed by
allocation index, `list(...)` allocating a fresh cell and `append` mutating
one cell in place. -/

/-- A heap of Python list-of-string objects, addressed by allocation order. -/
structure PyListHeap where
  cells : List (List String)
deriving DecidableEq, Repr

/-- Dereference a list object (out-of-range reads never arise in the code
modelled here). -/
def PyListHeap.read (h : PyListHeap) (r : Nat) : List String :=
  h.cells.getD r []

/-- Allocate a fresh list object, returning the new heap and its reference. -/
def PyListHeap.alloc (h : PyListHeap) (v : List String) : PyListHeap × Nat :=
  (⟨h.cells ++ [v]⟩, h.cells.length)

/-- Overwrite a list object in place. -/
def PyListHeap.write (h : PyListHeap) (r : Nat) (v : List String) : PyListHeap :=
  ⟨h.cells.set r v⟩

/-- Heap-explicit rendering of the tag handling of `create_zendesk_ticket`
(`tags = list(tags or [])`, `tags.append('LMS')`, `tags = list(set(tags))`):
the caller's argument is a reference (or `None`); `list(...)` copies into a
fresh cell, the `append` mutates only that fresh cell, and the final
`list(set(...))` allocates again.  Returns the final heap and the reference
the local name `tags` is bound to afterwards. -/
def zendesk_tags_step (h : PyListHeap) (tagsRef : Option Nat) : PyListHeap × Nat :=
  let v : List String :=
    match tagsRef with
    | some r => h.read r
    | none => []
  let a1 := h.alloc v
  let h1 := a1.1
  let r1 := a1.2
  let h2 := h1.write r1 (h1.read r1 ++ ["LMS"])
  let a2 := h2.alloc ((h2.read r1).dedup)
  (a2.1, a2.2)

/-! Trace observers used by the claim statements. -/

/-- The refund ID of an approval call event, if it is one. -/
def approveCallId : Event → Option Int
  | .callApprove refund_id => some refund_id
  | _ => none

/-- The approval calls appearing in a trace, in order. -/
def approveCalls (evs : List Event) : List Int :=
  evs.filterMap approveCallId

/-- Whether an event is the entry into `send_refund_notification`. -/
def Event.isNotifyAttempt : Event → Bool
  | .callSendRefundNotification _ => true
  | _ => false

/-- Whether an event is the non-verified-mode suppression log line. -/
def Event.isSuppression : Event → Bool
  | .logInfoSkipNotification _ _ _ => true
  | _ => false

/-- Whether a trace contains a `send_refund_notification` attempt. -/
def notifyAttempted (evs : List Event) : Bool :=
  evs.any Event.isNotifyAttempt

/-- Whether a trace contains the suppression log line. -/
def suppressionLogged (evs : List Event) : Bool :=
  evs.any Event.isSuppression

/-- Events that `create_zendesk_ticket` can emit; used to show its trace is
disjoint from approval, suppression and notification-marker events. -/
def zendeskOnly : Event → Bool
  | .callZendeskPost _ _ _ _ => true
  | .logErrorZendeskStatus _ _ => true
  | .logDebugZendeskCreated => true
  | .logExcZendeskFailed => true
  | .logDebugZendeskNotConfigured => true
  | _ => false

/-! Concrete data used by the witness and counterexample theorems. -/

def uAlice : PyUser :=
  { id := 7, username := "alice", email := "alice@example.com",
    profileName := "Alice A", isAnonymous := false }

def uAnon : PyUser :=
  { id := 0, username := "", email := "", profileName := "", isAnonymous := true }

def uWorker : PyUser :=
  { id := 1, username := "ecommerce_worker", email := "w@example.com",
    profileName := "", isAnonymous := false }

def ceSample : CourseEnrollment :=
  { user := uAlice, course_id := "course-v1:edX+DemoX+Demo", mode := "verified" }

def entSample : CourseEntitlement :=
  { user := uAlice, uuid := "11111111-2222-3333-4444-555555555555",
    order_number := "EDX-100", mode := "verified" }

/-- A fully configured environment: three refunds open, the approval of
refund 102 fails, Zendesk reachable. -/
def envBase : Env :=
  { commerceConfigured := true
    requestUser := some uAlice
    refundable := .ok true
    entitlementRefundable := .ok true
    ecommerceServiceWorkerUsername := "ecommerce_worker"
    userGet := fun _ => .ok uWorker
    configCurrent := .ok true
    refundsPost := fun _ => .ok [101, 102, 103]
    approvePut := fun refund_id =>
      if refund_id = 102 then .error ⟨"HttpClientError"⟩ else .ok ()
    themedSite := false
    ecommercePublicUrlRoot := "https://ecommerce.example.com"
    zendeskUrl := some "https://zendesk.example.com"
    zendeskUser := some "zduser"
    zendeskApiKey := some "zdkey"
    requestsPost := fun _ _ _ _ => .ok (201, "") }

/-- envBase with auto-approval disabled. -/
def envNoAuto : Env := { envBase with configCurrent := .ok false }

/-- envBase with an empty open-refund response. -/
def envEmptyRefunds : Env := { envBase with refundsPost := fun _ => .ok [] }

/-- envBase on a themed site (notification raises NotImplementedError). -/
def envThemed : Env := { envBase with themedSite := true }

/-- envBase whose eligibility predicates raise. -/
def envEligibilityRaises : Env :=
  { envBase with refundable := .error ⟨"DatabaseError"⟩,
                 entitlementRefundable := .error ⟨"DatabaseError"⟩ }

/-- envBase with no request user. -/
def envNoRequestUser : Env := { envBase with requestUser := none }

/-- envBase whose request user is an AnonymousUser. -/
def envAnonRequestUser : Env := { envBase with requestUser := some uAnon }

/-- envBase with the Zendesk settings absent. -/
def envZendeskUnset : Env :=
  { envBase with zendeskUrl := none, zendeskUser := none, zendeskApiKey := none }

/-- envBase whose ticket POST raises a transport error. -/
def envZendeskDown : Env :=
  { envBase with requestsPost := fun _ _ _ _ => .error ⟨"ConnectionError"⟩ }

/-- Events emitted by the per-ID approval loop. -/
def approvalOnly : Event → Bool
  | .callApprove _ => true
  | .logInfoRefundApproved _ => true
  | .logExcApproveFailed _ => true
  | _ => false

/-! Helper lemmas about the traces of the embedded functions. -/

theorem zendeskOnly_create_zendesk_ticket (env : Env) (n : String) (e : String)
    (s : String) (b : String) (t : Option (List String)) :
    ((create_zendesk_ticket env n e s b t).1).all zendeskOnly = true := by
  unfold create_zendesk_ticket
  split
  · dsimp only
    split
    · simp [zendeskOnly]
    · split <;> simp [zendeskOnly]
  all_goals simp [zendeskOnly]

theorem zendeskOnly_send_refund_notification (env : Env) (cp : CourseProduct)
    (refund_ids : List Int) :
    ((send_refund_notification env cp refund_ids).1).all zendeskOnly = true := by
  unfold send_refund_notification
  split
  · simp
  · exact zendeskOnly_create_zendesk_ticket env _ _ _ _ _

theorem approveCallId_eq_none_of_zendeskOnly {ev : Event}
    (h : zendeskOnly ev = true) : approveCallId ev = none := by
  cases ev <;> simp_all [zendeskOnly, approveCallId]

theorem isNotifyAttempt_false_of_zendeskOnly {ev : Event}
    (h : zendeskOnly ev = true) : ev.isNotifyAttempt = false := by
  cases ev <;> simp_all [zendeskOnly, Event.isNotifyAttempt]

theorem isSuppression_false_of_zendeskOnly {ev : Event}
    (h : zendeskOnly ev = true) : ev.isSuppression = false := by
  cases ev <;> simp_all [zendeskOnly, Event.isSuppression]

theorem approveCalls_eq_nil_of_all_zendeskOnly {evs : List Event}
    (h : evs.all zendeskOnly = true) : approveCalls evs = [] := by
  rw [approveCalls, List.filterMap_eq_nil_iff]
  intro ev hev
  exact approveCallId_eq_none_of_zendeskOnly (by simp [List.all_eq_true] at h; exact h ev hev)

theorem notifyAttempted_false_of_all_zendeskOnly {evs : List Event}
    (h : evs.all zendeskOnly = true) : notifyAttempted evs = false := by
  rw [notifyAttempted]
  simp only [List.any_eq_false]
  intro ev hev
  simp [List.all_eq_true] at h
  simp [isNotifyAttempt_false_of_zendeskOnly (h ev hev)]

theorem suppressionLogged_false_of_all_zendeskOnly {evs : List Event}
    (h : evs.all zendeskOnly = true) : suppressionLogged evs = false := by
  rw [suppressionLogged]
  simp only [List.any_eq_false]
  intro ev hev
  simp [List.all_eq_true] at h
  simp [isSuppression_false_of_zendeskOnly (h ev hev)]

theorem approvalOnly_approveLoop (env : Env) (refund_ids : List Int) :
    ((approveLoop env refund_ids).1).all approvalOnly = true := by
  induction refund_ids with
  | nil => rfl
  | cons refund_id rest ih =>
    cases h : env.approvePut refund_id <;>
      simp_all [approveLoop, h, approvalOnly]

theorem approveLoop_calls (env : Env) (refund_ids : List Int) :
    approveCalls (approveLoop env refund_ids).1 = refund_ids := by
  induction refund_ids with
  | nil => rfl
  | cons refund_id rest ih =>
    cases h : env.approvePut refund_id <;>
      simp_all [approveLoop, h, approveCalls, approveCallId]

theorem approveLoop_pending (env : Env) (refund_ids : List Int) :
    (approveLoop env refund_ids).2
      = refund_ids.filter (fun refund_id => !(isOkE (env.approvePut refund_id))) := by
  induction refund_ids with
  | nil => rfl
  | cons refund_id rest ih =>
    cases h : env.approvePut refund_id <;>
      simp_all [approveLoop, h, isOkE]

theorem approveLoop_fail_logged (env : Env) {refund_ids : List Int} {refund_id : Int}
    (hmem : refund_id ∈ refund_ids) (hfail : isOkE (env.approvePut refund_id) = false) :
    Event.logExcApproveFailed refund_id ∈ (approveLoop env refund_ids).1 := by
  induction refund_ids with
  | nil => cases hmem
  | cons hd rest ih =>
    rcases List.mem_cons.mp hmem with h | h
    · subst h
      cases h2 : env.approvePut refund_id
      · simp [approveLoop, h2]
      · simp [isOkE, h2] at hfail
    · have hrest := ih h
      cases h2 : env.approvePut hd <;> simp [approveLoop, h2, hrest]

theorem notifyAttempted_false_approveLoop (env : Env) (refund_ids : List Int) :
    notifyAttempted (approveLoop env refund_ids).1 = false := by
  have h := approvalOnly_approveLoop env refund_ids
  rw [notifyAttempted]
  simp only [List.any_eq_false]
  intro ev hev
  simp [List.all_eq_true] at h
  have := h ev hev
  cases ev <;> simp_all [approvalOnly, Event.isNotifyAttempt]

theorem suppressionLogged_false_approveLoop (env : Env) (refund_ids : List Int) :
    suppressionLogged (approveLoop env refund_ids).1 = false := by
  have h := approvalOnly_approveLoop env refund_ids
  rw [suppressionLogged]
  simp only [List.any_eq_false]
  intro ev hev
  simp [List.all_eq_true] at h
  have := h ev hev
  cases ev <;> simp_all [approvalOnly, Event.isSuppression]

theorem process_refund_eq (env : Env) (refund_ids : List Int)
    (cp : CourseProduct) (ie : Bool) (auto : Bool)
    (h : env.configCurrent = Except.ok auto) :
    _process_refund env refund_ids cp ie =
      ((refundsRequiringApproval env auto refund_ids).1 ++
        (notifyBranch env (refundsRequiringApproval env auto refund_ids).2 cp ie).1,
       (notifyBranch env (refundsRequiringApproval env auto refund_ids).2 cp ie).2) := by
  simp [_process_refund, h]

theorem approveCalls_notifyBranch (env : Env) (pending : List Int)
    (cp : CourseProduct) (ie : Bool) :
    approveCalls (notifyBranch env pending cp ie).1 = [] := by
  have hall := zendeskOnly_send_refund_notification env cp pending
  have hsrn := approveCalls_eq_nil_of_all_zendeskOnly hall
  unfold notifyBranch
  split
  · rfl
  · split
    · simp [approveCalls, approveCallId]
    · dsimp only
      split <;> simp_all [approveCalls, approveCallId, List.filterMap_append]

theorem notifyBranch_suppression (env : Env) (pending : List Int)
    (cp : CourseProduct) (ie : Bool)
    (hne : pending ≠ []) (hmode : cp.mode ≠ "verified") :
    (notifyBranch env pending cp ie).1 =
      [Event.logInfoSkipNotification cp.user.id
        (if ie then cp.uuid else cp.course_id) cp.mode] := by
  simp [notifyBranch, hne, hmode]

/-- C1: with automatic refund approval enabled, `_process_refund` attempts one
approval call per refund ID, in input order and for every ID of the batch
(no per-ID failure aborts the loop); the IDs collected into
`refunds_requiring_approval` are exactly the ones whose approval call raised,
and each such failure is logged. -/
theorem C1_per_id_approval_isolation (env : Env) (refund_ids : List Int)
    (cp : CourseProduct) (ie : Bool)
    (hauto : env.configCurrent = Except.ok true) (_hne : refund_ids ≠ []) :
    approveCalls (_process_refund env refund_ids cp ie).1 = refund_ids ∧
    (refundsRequiringApproval env true refund_ids).2
      = refund_ids.filter (fun refund_id => !(isOkE (env.approvePut refund_id))) ∧
    ∀ refund_id ∈ refund_ids, isOkE (env.approvePut refund_id) = false →
      Event.logExcApproveFailed refund_id ∈ (_process_refund env refund_ids cp ie).1 := by
  have hdec := process_refund_eq env refund_ids cp ie true hauto
  have hbranch := approveCalls_notifyBranch env
    (refundsRequiringApproval env true refund_ids).2 cp ie
  refine ⟨?_, by simpa [refundsRequiringApproval] using approveLoop_pending env refund_ids, ?_⟩
  · rw [hdec]
    have hloop := approveLoop_calls env refund_ids
    simp only [approveCalls, List.filterMap_append] at hbranch hloop ⊢
    simp only [refundsRequiringApproval, if_pos] at hbranch ⊢
    rw [hbranch, List.append_nil, hloop]
  · intro refund_id hmem hfail
    rw [hdec]
    have hlog := approveLoop_fail_logged env hmem hfail
    simp only [refundsRequiringApproval, if_pos] at hlog ⊢
    exact List.mem_append.mpr (Or.inl hlog)

/-- Witness for C1 at a three-ID batch where only the approval of refund 102
fails. -/
theorem C1_per_id_approval_isolation_witness :
    envBase.configCurrent = Except.ok true ∧ ([101, 102, 103] : List Int) ≠ [] ∧
    (approveCalls (_process_refund envBase [101, 102, 103] ceSample.toProduct false).1
        = [101, 102, 103] ∧
     (refundsRequiringApproval envBase true [101, 102, 103]).2
        = ([101, 102, 103] : List Int).filter
            (fun refund_id => !(isOkE (envBase.approvePut refund_id))) ∧
     ∀ refund_id ∈ ([101, 102, 103] : List Int),
       isOkE (envBase.approvePut refund_id) = false →
         Event.logExcApproveFailed refund_id
           ∈ (_process_refund envBase [101, 102, 103] ceSample.toProduct false).1) :=
  ⟨rfl, by decide,
    C1_per_id_approval_isolation envBase [101, 102, 103] ceSample.toProduct false rfl
      (by decide)⟩

/-- C2: when the needs-approval subset is non-empty and the product's mode is
not 'verified', `_process_refund` logs the suppression line and never enters
`send_refund_notification`; when the needs-approval subset is empty, neither
the suppression log nor a notification attempt occurs. -/
theorem C2_nonverified_suppression (env : Env) (refund_ids : List Int)
    (cp : CourseProduct) (ie : Bool) (auto : Bool)
    (h : env.configCurrent = Except.ok auto) :
    ((refundsRequiringApproval env auto refund_ids).2 ≠ [] → cp.mode ≠ "verified" →
      suppressionLogged (_process_refund env refund_ids cp ie).1 = true ∧
      notifyAttempted (_process_refund env refund_ids cp ie).1 = false) ∧
    ((refundsRequiringApproval env auto refund_ids).2 = [] →
      suppressionLogged (_process_refund env refund_ids cp ie).1 = false ∧
      notifyAttempted (_process_refund env refund_ids cp ie).1 = false) := by
  have hdec := process_refund_eq env refund_ids cp ie auto h
  have hP1notify : notifyAttempted (refundsRequiringApproval env auto refund_ids).1 = false := by
    cases auto
    · simp [refundsRequiringApproval, notifyAttempted]
    · simpa [refundsRequiringApproval] using notifyAttempted_false_approveLoop env refund_ids
  have hP1supp : suppressionLogged (refundsRequiringApproval env auto refund_ids).1 = false := by
    cases auto
    · simp [refundsRequiringApproval, suppressionLogged]
    · simpa [refundsRequiringApproval] using suppressionLogged_false_approveLoop env refund_ids
  constructor
  · intro hne hmode
    have hbr := notifyBranch_suppression env _ cp ie hne hmode
    rw [hdec]
    constructor
    · simp [suppressionLogged, List.any_append, hbr, Event.isSuppression]
    · simp only [notifyAttempted, List.any_append, hbr]
      simp only [notifyAttempted] at hP1notify
      simp [hP1notify, Event.isNotifyAttempt]
  · intro hnil
    rw [hdec, hnil]
    simp only [notifyBranch, List.isEmpty_nil, if_true, List.append_nil]
    exact ⟨hP1supp, hP1notify⟩

/-- Witness for C2: all three approvals succeed under this environment, so the
needs-approval subset is empty and no suppression or notification happens. -/
theorem C2_nonverified_suppression_witness :
    (let envOk : Env := { envBase with approvePut := fun _ => Except.ok () }
     envOk.configCurrent = Except.ok true ∧
     (((refundsRequiringApproval envOk true [101, 102, 103]).2 ≠ [] →
        CourseProduct.mode ceSample.toProduct ≠ "verified" →
        suppressionLogged
          (_process_refund envOk [101, 102, 103] ceSample.toProduct false).1 = true ∧
        notifyAttempted
          (_process_refund envOk [101, 102, 103] ceSample.toProduct false).1 = false) ∧
      ((refundsRequiringApproval envOk true [101, 102, 103]).2 = [] →
        suppressionLogged
          (_process_refund envOk [101, 102, 103] ceSample.toProduct false).1 = false ∧
        notifyAttempted
          (_process_refund envOk [101, 102, 103] ceSample.toProduct false).1 = false))) :=
  ⟨rfl, C2_nonverified_suppression _ [101, 102, 103] ceSample.toProduct false true rfl⟩

/-- C6: with automatic refund approval disabled, `_process_refund` makes no
approval call and hands the whole batch of opened refund IDs to the
notification/suppression branch. -/
theorem C6_auto_approval_disabled (env : Env) (refund_ids : List Int)
    (cp : CourseProduct) (ie : Bool)
    (h : env.configCurrent = Except.ok false) :
    approveCalls (_process_refund env refund_ids cp ie).1 = [] ∧
    _process_refund env refund_ids cp ie = notifyBranch env refund_ids cp ie := by
  have hdec := process_refund_eq env refund_ids cp ie false h
  have hbranch := approveCalls_notifyBranch env refund_ids cp ie
  constructor
  · rw [hdec]
    simpa [refundsRequiringApproval, approveCalls, List.filterMap_append]
      using hbranch
  · rw [hdec]
    simp [refundsRequiringApproval]

/-- Witness for C6 at the three-ID batch. -/
theorem C6_auto_approval_disabled_witness :
    envNoAuto.configCurrent = Except.ok false ∧
    (approveCalls (_process_refund envNoAuto [101, 102, 103] ceSample.toProduct false).1
        = [] ∧
     _process_refund envNoAuto [101, 102, 103] ceSample.toProduct false
        = notifyBranch envNoAuto [101, 102, 103] ceSample.toProduct false) :=
  ⟨rfl, C6_auto_approval_disabled envNoAuto [101, 102, 103] ceSample.toProduct false rfl⟩

/-- C5: when the open-refund POST returns an empty list, both `refund_seat`
and `refund_entitlement` log the no-refund line, never reach the approval or
notification logic, and return the empty list. -/
theorem C5_empty_refund_list_terminal (env : Env) (ce : CourseEnrollment)
    (ent : CourseEntitlement) (su : PyUser)
    (hu : env.userGet env.ecommerceServiceWorkerUsername = Except.ok su)
    (hps : env.refundsPost (RefundPayload.seat ce.course_id ce.user.username)
      = Except.ok [])
    (hpe : env.refundsPost
        (RefundPayload.entitlement ent.order_number ent.user.username ent.uuid)
      = Except.ok []) :
    (refund_seat env ce).2 = Except.ok [] ∧
    approveCalls (refund_seat env ce).1 = [] ∧
    notifyAttempted (refund_seat env ce).1 = false ∧
    Event.logInfoNoRefundOpened ce.user.id ce.course_id ∈ (refund_seat env ce).1 ∧
    (refund_entitlement env ent).2 = Except.ok [] ∧
    approveCalls (refund_entitlement env ent).1 = [] ∧
    notifyAttempted (refund_entitlement env ent).1 = false ∧
    Event.logInfoNoRefundOpenedEnt ent.user.id ent.uuid
      ∈ (refund_entitlement env ent).1 := by
  have h1 : refund_seat env ce =
      ([Event.logInfoAttemptingRefund ce.user.id ce.course_id,
        Event.callOpenRefund (RefundPayload.seat ce.course_id ce.user.username),
        Event.logInfoNoRefundOpened ce.user.id ce.course_id], Except.ok []) := by
    simp [refund_seat, hu, hps]
  have h2 : refund_entitlement env ent =
      ([Event.logInfoAttemptingRefundEnt ent.user.username ent.uuid,
        Event.callOpenRefund
          (RefundPayload.entitlement ent.order_number ent.user.username ent.uuid),
        Event.logInfoNoRefundOpenedEnt ent.user.id ent.uuid], Except.ok []) := by
    simp [refund_entitlement, hu, hpe]
  rw [h1, h2]
  simp [approveCalls, approveCallId, notifyAttempted, Event.isNotifyAttempt]

/-- Witness for C5 under an environment whose open-refund POST returns no
IDs. -/
theorem C5_empty_refund_list_terminal_witness :
    envEmptyRefunds.userGet envEmptyRefunds.ecommerceServiceWorkerUsername
        = Except.ok uWorker ∧
    envEmptyRefunds.refundsPost
        (RefundPayload.seat ceSample.course_id ceSample.user.username)
        = Except.ok [] ∧
    (refund_seat envEmptyRefunds ceSample).2 = Except.ok [] ∧
    notifyAttempted (refund_seat envEmptyRefunds ceSample).1 = false ∧
    Event.logInfoNoRefundOpenedEnt entSample.user.id entSample.uuid
      ∈ (refund_entitlement envEmptyRefunds entSample).1 := by
  have h := C5_empty_refund_list_terminal envEmptyRefunds ceSample entSample uWorker
    rfl rfl rfl
  exact ⟨rfl, rfl, h.1, h.2.2.1, h.2.2.2.2.2.2.2⟩

/-- The ticket-creation helper never lets an exception escape. -/
theorem create_zendesk_ticket_ok (env : Env) (n : String) (e : String)
    (s : String) (b : String) (t : Option (List String)) :
    (create_zendesk_ticket env n e s b t).2 = Except.ok () := by
  unfold create_zendesk_ticket
  split
  · dsimp only
    split
    · rfl
    · split <;> rfl
  all_goals rfl

/-- C9: `create_zendesk_ticket` never raises; a missing Zendesk setting makes
it a debug-logged no-op with no outbound POST, a transport error is logged,
and a non-201 status is logged, the function returning normally in every
case. -/
theorem C9_zendesk_never_raises (env : Env) (n : String) (e : String)
    (s : String) (b : String) (t : Option (List String)) :
    (create_zendesk_ticket env n e s b t).2 = Except.ok () ∧
    ((env.zendeskUrl = none ∨ env.zendeskUser = none ∨ env.zendeskApiKey = none) →
      (create_zendesk_ticket env n e s b t).1 = [Event.logDebugZendeskNotConfigured]) ∧
    (∀ zurl zuser zkey, env.zendeskUrl = some zurl → env.zendeskUser = some zuser →
      env.zendeskApiKey = some zkey →
      (isOkE (env.requestsPost (urljoin zurl "/api/v2/tickets.json")
          (zuser ++ "/token") zkey
          (ZendeskTicket.mk n e s b ((t.getD [] ++ ["LMS"]).dedup))) = false →
        Event.logExcZendeskFailed ∈ (create_zendesk_ticket env n e s b t).1) ∧
      (∀ status content,
        env.requestsPost (urljoin zurl "/api/v2/tickets.json") (zuser ++ "/token") zkey
            (ZendeskTicket.mk n e s b ((t.getD [] ++ ["LMS"]).dedup))
          = Except.ok (status, content) →
        status ≠ 201 →
        Event.logErrorZendeskStatus status content
          ∈ (create_zendesk_ticket env n e s b t).1)) := by
  refine ⟨create_zendesk_ticket_ok env n e s b t, ?_, ?_⟩
  · intro h
    unfold create_zendesk_ticket
    rcases hu : env.zendeskUrl with _ | zu <;> rcases hs : env.zendeskUser with _ | zs <;>
      rcases hk : env.zendeskApiKey with _ | zk <;> simp_all
  · intro zurl zuser zkey hu hs hk
    constructor
    · intro hfail
      rcases hr : env.requestsPost (urljoin zurl "/api/v2/tickets.json")
          (zuser ++ "/token") zkey
          (ZendeskTicket.mk n e s b ((t.getD [] ++ ["LMS"]).dedup)) with exc | pr
      · simp [create_zendesk_ticket, hu, hs, hk, hr]
      · simp [isOkE, hr] at hfail
    · intro status content hr hstatus
      simp [create_zendesk_ticket, hu, hs, hk, hr, hstatus]

/-- Witness for C9: with the Zendesk settings present but the endpoint
unreachable, the failure is logged and the call still returns normally; with
the settings absent, only the debug line is emitted. -/
theorem C9_zendesk_never_raises_witness :
    (create_zendesk_ticket envZendeskDown "Alice A" "alice@example.com"
        "[Refund] User-Requested Refund" "body" (some ["auto_refund"])).2
      = Except.ok () ∧
    Event.logExcZendeskFailed
      ∈ (create_zendesk_ticket envZendeskDown "Alice A" "alice@example.com"
          "[Refund] User-Requested Refund" "body" (some ["auto_refund"])).1 ∧
    (create_zendesk_ticket envZendeskUnset "Alice A" "alice@example.com"
        "[Refund] User-Requested Refund" "body" (some ["auto_refund"])).1
      = [Event.logDebugZendeskNotConfigured] := by
  have hdown := C9_zendesk_never_raises envZendeskDown "Alice A" "alice@example.com"
    "[Refund] User-Requested Refund" "body" (some ["auto_refund"])
  have hunset := C9_zendesk_never_raises envZendeskUnset "Alice A" "alice@example.com"
    "[Refund] User-Requested Refund" "body" (some ["auto_refund"])
  refine ⟨hdown.1, ?_, hunset.2.1 (Or.inl rfl)⟩
  exact (hdown.2.2 "https://zendesk.example.com" "zduser" "zdkey" rfl rfl rfl).1 rfl

/-- C10: the heap-explicit rendering of the tag handling in
`create_zendesk_ticket` copies the caller's list before appending 'LMS' and
de-duplicating, so the caller's list object reads back unchanged. -/
theorem C10_tags_argument_not_mutated (h : PyListHeap) (r : Nat)
    (hr : r < h.cells.length) :
    ((zendesk_tags_step h (some r)).1).read r = h.read r := by
  unfold zendesk_tags_step PyListHeap.alloc PyListHeap.write PyListHeap.read
  dsimp only
  rw [List.getD_eq_getElem?_getD, List.getD_eq_getElem?_getD,
    List.getElem?_append_left (by simp [Nat.lt_succ_of_lt hr]),
    List.getElem?_set_ne (Nat.ne_of_gt hr),
    List.getElem?_append_left hr]

/-- Witness for C10 on a one-cell heap. -/
theorem C10_tags_argument_not_mutated_witness :
    0 < (PyListHeap.mk [["duplicate", "LMS"]]).cells.length ∧
    ((zendesk_tags_step (PyListHeap.mk [["duplicate", "LMS"]]) (some 0)).1).read 0
      = (PyListHeap.mk [["duplicate", "LMS"]]).read 0 :=
  ⟨by decide, C10_tags_argument_not_mutated (PyListHeap.mk [["duplicate", "LMS"]]) 0
    (by decide)⟩

theorem notifyBranch_ok (env : Env) (pending : List Int) (cp : CourseProduct)
    (ie : Bool) : (notifyBranch env pending cp ie).2 = Except.ok () := by
  unfold notifyBranch
  split
  · rfl
  · split
    · rfl
    · dsimp only
      split <;> rfl

theorem process_refund_ok (env : Env) (refund_ids : List Int) (cp : CourseProduct)
    (ie : Bool) (auto : Bool) (h : env.configCurrent = Except.ok auto) :
    (_process_refund env refund_ids cp ie).2 = Except.ok () := by
  rw [process_refund_eq env refund_ids cp ie auto h]
  exact notifyBranch_ok env _ cp ie

theorem refund_seat_returns (env : Env) (ce : CourseEnrollment) (su : PyUser)
    (refund_ids : List Int) (auto : Bool)
    (hu : env.userGet env.ecommerceServiceWorkerUsername = Except.ok su)
    (hps : env.refundsPost (RefundPayload.seat ce.course_id ce.user.username)
      = Except.ok refund_ids)
    (hcfg : env.configCurrent = Except.ok auto) :
    (refund_seat env ce).2 = Except.ok refund_ids := by
  have hp := process_refund_ok env refund_ids ce.toProduct false auto hcfg
  rcases hproc : (_process_refund env refund_ids ce.toProduct false).2 with exc | u
  · rw [hp] at hproc
    simp at hproc
  · by_cases hids : refund_ids.isEmpty <;>
      simp [refund_seat, hu, hps, hproc, hids]

theorem refund_entitlement_returns (env : Env) (ent : CourseEntitlement)
    (su : PyUser) (refund_ids : List Int) (auto : Bool)
    (hu : env.userGet env.ecommerceServiceWorkerUsername = Except.ok su)
    (hpe : env.refundsPost
        (RefundPayload.entitlement ent.order_number ent.user.username ent.uuid)
      = Except.ok refund_ids)
    (hcfg : env.configCurrent = Except.ok auto) :
    (refund_entitlement env ent).2 = Except.ok refund_ids := by
  have hp := process_refund_ok env refund_ids ent.toProduct true auto hcfg
  rcases hproc : (_process_refund env refund_ids ent.toProduct true).2 with exc | u
  · rw [hp] at hproc
    simp at hproc
  · by_cases hids : refund_ids.isEmpty <;>
      simp [refund_entitlement, hu, hpe, hproc, hids]

/-- C3: an exception out of `send_refund_notification` (in particular the
fail-fast `NotImplementedError` on a themed site) is caught inside
`_process_refund` and logged as a warning, `_process_refund` returns
normally, and `refund_seat` / `refund_entitlement` still hand the opened
refund IDs back to their caller. -/
theorem C3_notification_failure_swallowed (env : Env) (refund_ids : List Int)
    (cp : CourseProduct) (ie : Bool) (auto : Bool)
    (ce : CourseEnrollment) (ent : CourseEntitlement) (su : PyUser)
    (seat_ids : List Int) (ent_ids : List Int)
    (hcfg : env.configCurrent = Except.ok auto)
    (hu : env.userGet env.ecommerceServiceWorkerUsername = Except.ok su)
    (hps : env.refundsPost (RefundPayload.seat ce.course_id ce.user.username)
      = Except.ok seat_ids)
    (hpe : env.refundsPost
        (RefundPayload.entitlement ent.order_number ent.user.username ent.uuid)
      = Except.ok ent_ids) :
    (env.themedSite = true →
      (send_refund_notification env cp refund_ids).2
        = Except.error ⟨"NotImplementedError"⟩) ∧
    (_process_refund env refund_ids cp ie).2 = Except.ok () ∧
    (isOkE (send_refund_notification env cp
        (refundsRequiringApproval env auto refund_ids).2).2 = false →
      (refundsRequiringApproval env auto refund_ids).2 ≠ [] →
      cp.mode = "verified" →
      Event.logWarningNotificationFailed ∈ (_process_refund env refund_ids cp ie).1) ∧
    (refund_seat env ce).2 = Except.ok seat_ids ∧
    (refund_entitlement env ent).2 = Except.ok ent_ids := by
  refine ⟨?_, process_refund_ok env refund_ids cp ie auto hcfg, ?_,
    refund_seat_returns env ce su seat_ids auto hu hps hcfg,
    refund_entitlement_returns env ent su ent_ids auto hu hpe hcfg⟩
  · intro ht
    simp [send_refund_notification, ht]
  · intro hfailN hne hmode
    have hdec := process_refund_eq env refund_ids cp ie auto hcfg
    rw [hdec]
    refine List.mem_append.mpr (Or.inr ?_)
    rcases hsent : (send_refund_notification env cp
        (refundsRequiringApproval env auto refund_ids).2).2 with exc | u
    · simp [notifyBranch, hne, hmode, hsent]
    · rw [hsent] at hfailN
      simp [isOkE] at hfailN

/-- Witness for C3: a themed site makes the notification raise; the warning is
logged, `_process_refund` returns normally and `refund_seat` returns the three
opened IDs. -/
theorem C3_notification_failure_swallowed_witness :
    (send_refund_notification envThemed ceSample.toProduct [102]).2
      = Except.error ⟨"NotImplementedError"⟩ ∧
    (_process_refund envThemed [101, 102, 103] ceSample.toProduct false).2
      = Except.ok () ∧
    Event.logWarningNotificationFailed
      ∈ (_process_refund envThemed [101, 102, 103] ceSample.toProduct false).1 ∧
    (refund_seat envThemed ceSample).2 = Except.ok [101, 102, 103] := by
  have h := C3_notification_failure_swallowed envThemed [101, 102, 103]
    ceSample.toProduct false true ceSample entSample uWorker [101, 102, 103]
    [101, 102, 103] rfl rfl rfl rfl
  refine ⟨h.1 rfl, h.2.1, ?_, h.2.2.2.1⟩
  exact h.2.2.1 (by decide) (by decide) rfl

/-- Counterexample to C4 as stated: the eligibility predicate is one of the
collaborators the claim quantifies over, but `course_enrollment.refundable()`
is evaluated before the handler's try/except, so an exception it raises
propagates out of `handle_refund_order`. -/
theorem C4_counterexample :
    (handle_refund_order envEligibilityRaises (some ceSample)).2
      = Except.error ⟨"DatabaseError"⟩ := by
  rfl

theorem handle_refund_order_ok (env : Env) (oce : Option CourseEnrollment)
    (hr : isOkE env.refundable = true) :
    (handle_refund_order env oce).2 = Except.ok () := by
  unfold handle_refund_order
  rcases henv : env.refundable with exc | b
  · simp [isOkE, henv] at hr
  · rcases oce with _ | ce
    · split <;> rfl
    · split
      · rfl
      · simp only [henv]
        cases b
        · rfl
        · rcases hres : (refund_seat env ce).2 with e | v <;>
            by_cases hanon : (actingUserForOrder env ce).isAnonymous = true <;>
            simp [hanon, hres]

theorem handle_refund_entitlement_ok (env : Env) (oent : Option CourseEntitlement)
    (he : isOkE env.entitlementRefundable = true) :
    (handle_refund_entitlement env oent).2 = Except.ok () := by
  unfold handle_refund_entitlement
  rcases henv : env.entitlementRefundable with exc | b
  · simp [isOkE, henv] at he
  · rcases oent with _ | ent
    · split <;> rfl
    · split
      · rfl
      · simp only [henv]
        cases b
        · rfl
        · rcases hgu : get_request_user env with _ | ru
          · simp [hgu]
          · rcases hres : (refund_entitlement env ent).2 with e | v <;>
              by_cases hown : ent.user = ru <;>
              simp [hgu, hown, hres]

/-- C4 (amended): whenever the eligibility predicates return without raising,
the two handlers never propagate an exception: everything raised inside their
try blocks (user resolution or refund orchestration) is caught, logged with
context, and swallowed.  An exception raised by the eligibility predicate
itself, which runs before the try block, is outside this guarantee. -/
theorem C4_handlers_swallow_try_block (env : Env)
    (oce : Option CourseEnrollment) (oent : Option CourseEntitlement)
    (hr : isOkE env.refundable = true)
    (he : isOkE env.entitlementRefundable = true) :
    (handle_refund_order env oce).2 = Except.ok () ∧
    (handle_refund_entitlement env oent).2 = Except.ok () ∧
    (∀ ce exc, env.commerceConfigured = true →
      env.refundable = Except.ok true →
      (actingUserForOrder env ce).isAnonymous = false →
      (refund_seat env ce).2 = Except.error exc →
      Event.logExcHandlerOrder ce.user.id ce.course_id
        ∈ (handle_refund_order env (some ce)).1) ∧
    (∀ ent exc, env.commerceConfigured = true →
      env.entitlementRefundable = Except.ok true →
      env.requestUser = some ent.user →
      (refund_entitlement env ent).2 = Except.error exc →
      Event.logExcHandlerEntitlement ent.user.id ent.uuid exc.name
        ∈ (handle_refund_entitlement env (some ent)).1) := by
  refine ⟨handle_refund_order_ok env oce hr,
    handle_refund_entitlement_ok env oent he, ?_, ?_⟩
  · intro ce exc hconf href hanon hfail
    simp [handle_refund_order, hconf, href, hanon, hfail]
  · intro ent exc hconf href hru hfail
    simp [handle_refund_entitlement, get_request_user, hconf, href, hru, hfail]

/-- Witness for C4 (amended): with eligibility fine but the refund POST
raising, both handlers return normally and the order handler logs the
exception. -/
theorem C4_handlers_swallow_try_block_witness :
    (let envDown : Env :=
      { envBase with refundsPost := fun _ => Except.error ⟨"Timeout"⟩ }
     isOkE envDown.refundable = true ∧
     isOkE envDown.entitlementRefundable = true ∧
     (handle_refund_order envDown (some ceSample)).2 = Except.ok () ∧
     (handle_refund_entitlement envDown (some entSample)).2 = Except.ok () ∧
     Event.logExcHandlerOrder ceSample.user.id ceSample.course_id
       ∈ (handle_refund_order envDown (some ceSample)).1) := by
  have h := C4_handlers_swallow_try_block
    { envBase with refundsPost := fun _ => Except.error ⟨"Timeout"⟩ }
    (some ceSample) (some entSample) rfl rfl
  exact ⟨rfl, rfl, h.1, h.2.1, h.2.2.1 ceSample ⟨"Timeout"⟩ rfl rfl rfl rfl⟩

/-- C7: the entitlement handler runs `refund_entitlement` exactly when a
request user resolved and is the entitlement's owner; otherwise it makes no
call at all. -/
theorem C7_entitlement_acting_user_gate (env : Env) (ent : CourseEntitlement)
    (hc : env.commerceConfigured = true)
    (hr : env.entitlementRefundable = Except.ok true) :
    (Event.callRefundEntitlement ent.user.id ent.uuid
        ∈ (handle_refund_entitlement env (some ent)).1
      ↔ env.requestUser = some ent.user) ∧
    (env.requestUser ≠ some ent.user →
      handle_refund_entitlement env (some ent) = ([], Except.ok ())) := by
  rcases hru : env.requestUser with _ | ru
  · constructor
    · simp [handle_refund_entitlement, get_request_user, hc, hr, hru]
    · intro _
      simp [handle_refund_entitlement, get_request_user, hc, hr, hru]
  · by_cases hown : ent.user = ru
    · subst hown
      constructor
      · constructor
        · intro _
          rfl
        · intro _
          rcases hres : (refund_entitlement env ent).2 with exc | ids <;>
            simp [handle_refund_entitlement, get_request_user, hc, hr, hru, hres]
      · intro hne
        exact absurd rfl hne
    · constructor
      · constructor
        · intro hmem
          simp [handle_refund_entitlement, get_request_user, hc, hr, hru, hown] at hmem
        · intro heq
          simp at heq
          exact absurd heq.symm hown
      · intro _
        simp [handle_refund_entitlement, get_request_user, hc, hr, hru, hown]

/-- Witness for C7: with the owner as request user the orchestration marker is
in the trace; with another user it is not and the handler does nothing. -/
theorem C7_entitlement_acting_user_gate_witness :
    envBase.commerceConfigured = true ∧
    envBase.entitlementRefundable = Except.ok true ∧
    Event.callRefundEntitlement entSample.user.id entSample.uuid
      ∈ (handle_refund_entitlement envBase (some entSample)).1 ∧
    handle_refund_entitlement envAnonRequestUser (some entSample)
      = ([], Except.ok ()) := by
  have h1 := C7_entitlement_acting_user_gate envBase entSample rfl rfl
  have h2 := C7_entitlement_acting_user_gate envAnonRequestUser entSample rfl rfl
  exact ⟨rfl, rfl, h1.1.mpr rfl, h2.2 (by decide)⟩

/-- C8: on the enrollment path, when no request user resolves the enrollment's
owner becomes the acting user; an anonymous acting user makes the handler
return with no call at all, and a non-anonymous one reaches `refund_seat`. -/
theorem C8_enrollment_fallback_and_anonymous (env : Env) (ce : CourseEnrollment)
    (hc : env.commerceConfigured = true)
    (hr : env.refundable = Except.ok true) :
    (env.requestUser = none → actingUserForOrder env ce = ce.user) ∧
    ((actingUserForOrder env ce).isAnonymous = true →
      handle_refund_order env (some ce) = ([], Except.ok ())) ∧
    ((actingUserForOrder env ce).isAnonymous = false →
      Event.callRefundSeat ce.user.id ce.course_id
        ∈ (handle_refund_order env (some ce)).1) := by
  refine ⟨?_, ?_, ?_⟩
  · intro hnone
    simp [actingUserForOrder, get_request_user, hnone]
  · intro hanon
    simp [handle_refund_order, hc, hr, hanon]
  · intro hanon
    rcases hres : (refund_seat env ce).2 with exc | ids <;>
      simp [handle_refund_order, hc, hr, hanon, hres]

/-- Witness for C8: with no request user, Alice (non-anonymous) is the acting
user and the orchestration marker appears; with an anonymous request user the
handler does nothing. -/
theorem C8_enrollment_fallback_and_anonymous_witness :
    envNoRequestUser.commerceConfigured = true ∧
    envNoRequestUser.refundable = Except.ok true ∧
    actingUserForOrder envNoRequestUser ceSample = ceSample.user ∧
    Event.callRefundSeat ceSample.user.id ceSample.course_id
      ∈ (handle_refund_order envNoRequestUser (some ceSample)).1 ∧
    handle_refund_order envAnonRequestUser (some ceSample) = ([], Except.ok ()) := by
  have h1 := C8_enrollment_fallback_and_anonymous envNoRequestUser ceSample rfl rfl
  have h2 := C8_enrollment_fallback_and_anonymous envAnonRequestUser ceSample rfl rfl
  exact ⟨rfl, rfl, h1.1 rfl, h1.2.2 (by decide), h2.2.1 (by decide)⟩

end CommerceSignals
